import Mathlib

/-!
Shallow embedding of `src/backend/solver.py` (class `PDESolver`, the
DeepXDE/PINN backend of auto_pde) and proofs about it.

External libraries are modelled as parameters or small abstractions:
  * `sympy` expression trees become the inductive `Expr` over the fixed
    symbol table `x y t u ut utt ux uy uxx uyy` (symbols used by
    `_compile_equation`); `expr.free_symbols` becomes `Expr.freeSymbols`.
  * `sympy.parsing.sympy_parser.parse_expr` is an external procedure,
    modelled as a parameter `parse : String → Option Expr`.
  * `sympy.solve` is an external procedure, modelled as a parameter of
    type `SolveFn := Expr → Sym → List Expr` (it returns the list of
    solutions, in the order the library produces them).
  * Python floats are modelled as `ℚ` (exact arithmetic; `np.linspace`
    sets both endpoints exactly, which `ℚ` reproduces faithfully).
  * The trained DeepXDE model (`dde.Model` after the `adam` and `L-BFGS`
    training of `solve`, lines 162-184) is abstracted as a prediction
    function `Predict := ℚ → ℚ → ℚ → List ℚ` giving the network output
    row at a point `(x, y, t)`; the network is initialized with an
    unseeded random `Glorot uniform` draw, so `Predict` is an input of
    the run environment, not a function of the solver state.
Exceptions (`raise ValueError(...)`) become `Except String`; quote
characters inside the Python messages are elided from the modelled
message strings.
-/

namespace AutoPDE

/-- The fixed symbol table declared in `_compile_equation` line 32:
`x, y, t, u, ut, utt, ux, uy, uxx, uyy = sp.symbols(...)`. -/
inductive Sym where
  | x | y | t | u | ut | utt | ux | uy | uxx | uyy
deriving DecidableEq, Repr

/-- Model of a sympy expression tree over the symbol table (the shapes
relevant to equations such as `ut - uxx - uyy`): symbols, rational
constants, sum, difference, product, quotient and negation. -/
inductive Expr where
  | sym : Sym → Expr
  | const : ℚ → Expr
  | add : Expr → Expr → Expr
  | sub : Expr → Expr → Expr
  | mul : Expr → Expr → Expr
  | div : Expr → Expr → Expr
  | neg : Expr → Expr
deriving DecidableEq, Repr

/-- Model of sympy `expr.free_symbols` (a set; only membership matters,
so a list with membership is used). -/
def Expr.freeSymbols : Expr → List Sym
  | .sym s => [s]
  | .const _ => []
  | .add a b => a.freeSymbols ++ b.freeSymbols
  | .sub a b => a.freeSymbols ++ b.freeSymbols
  | .mul a b => a.freeSymbols ++ b.freeSymbols
  | .div a b => a.freeSymbols ++ b.freeSymbols
  | .neg a => a.freeSymbols

/-- Model of `sympy.solve(expr, symbol)`: an external procedure returning
the list of algebraic solutions in library order. -/
def SolveFn : Type := Expr → Sym → List Expr

/-- The `domain` dict consumed by `PDESolver` (keys listed in the
`__init__` docstring, line 16). -/
structure Domain where
  x_min : ℚ
  x_max : ℚ
  y_min : ℚ
  y_max : ℚ
  t_max : ℚ
  nx : ℕ
  ny : ℕ
  dt : ℚ
deriving DecidableEq, Repr

/-- The attributes produced by `_compile_equation` (lines 29-57):
`self.order` and `self.rhs_sympy`. -/
structure CompiledEq where
  order : ℕ
  rhs_sympy : Expr
deriving DecidableEq, Repr

/-- `PDESolver._compile_equation` (lines 29-57): parse the implicit
equation, detect the order from the free symbols (`utt` checked first,
then `ut`), solve for the governing time-derivative symbol, keep the
first solution.  Every failure inside the `try` block is re-raised as
`ValueError("Invalid equation string: ...")` (lines 56-57). -/
def compileEquation (parse : String → Option Expr) (solveFn : SolveFn)
    (equation_str : String) : Except String CompiledEq :=
  match parse equation_str with
  | none => .error ("Invalid equation string: parse error")
  | some expr =>
    if Sym.utt ∈ expr.freeSymbols then
      match solveFn expr Sym.utt with
      | [] => .error ("Invalid equation string: Could not solve equation for utt")
      | e :: _ => .ok ⟨2, e⟩
    else if Sym.ut ∈ expr.freeSymbols then
      match solveFn expr Sym.ut with
      | [] => .error ("Invalid equation string: Could not solve equation for ut")
      | e :: _ => .ok ⟨1, e⟩
    else
      .error ("Invalid equation string: Equation must contain ut or utt")

/-- `PDESolver._compile_ic` (lines 59-66): parse the initial-condition
string (the lambdified evaluator is `PDESolver.ic_func` below). -/
def compileIC (parse : String → Option Expr) (ic_str : String) :
    Except String Expr :=
  match parse ic_str with
  | none => .error ("Invalid IC string: parse error")
  | some expr => .ok expr

/-- The state of a `PDESolver` instance after `__init__` succeeds
(lines 11-27): the four stored constructor arguments plus the compiled
attributes.  `B` is the type of the `bc_params` object. -/
structure PDESolver (B : Type) where
  equation_str : String
  domain : Domain
  ic_str : String
  bc_params : B
  order : ℕ
  rhs_sympy : Expr
  icExpr : Expr
deriving DecidableEq, Repr

/-- `PDESolver.__init__` (lines 11-27): store the four arguments, then
run `_compile_equation` and `_compile_ic`.  The domain is not inspected
or validated anywhere in the constructor. -/
def PDESolver.init {B : Type} (parse : String → Option Expr)
    (solveFn : SolveFn) (equation_str : String) (domain : Domain)
    (ic_str : String) (bc_params : B) : Except String (PDESolver B) :=
  match compileEquation parse solveFn equation_str with
  | .error e => .error e
  | .ok c =>
    match compileIC parse ic_str with
    | .error e => .error e
    | .ok icE =>
      .ok ⟨equation_str, domain, ic_str, bc_params, c.order, c.rhs_sympy, icE⟩

/-- Evaluation environment mapping each symbol to a value. -/
def Env : Type := Sym → ℚ

/-- Evaluation of the modelled expression tree (ℚ division is total with
`q / 0 = 0`). -/
def Expr.eval (env : Env) : Expr → ℚ
  | .sym s => env s
  | .const q => q
  | .add a b => a.eval env + b.eval env
  | .sub a b => a.eval env - b.eval env
  | .mul a b => a.eval env * b.eval env
  | .div a b => a.eval env / b.eval env
  | .neg a => -(a.eval env)

/-- `self.ic_func = sp.lambdify((x, y), expr, 'numpy')` (line 64):
evaluate the compiled IC expression at `(x, y)` (symbols other than the
two bound ones default to 0 in the model). -/
def PDESolver.ic_func {B : Type} (s : PDESolver B) (xv yv : ℚ) : ℚ :=
  s.icExpr.eval (fun sym => match sym with
    | .x => xv
    | .y => yv
    | _ => 0)

/-- The derivative values of the network output at a training point, as
produced by `dde.grad.jacobian` / `dde.grad.hessian` inside
`_pde_residual` (lines 74-100): `u_t`, `u_xx`, `u_yy`, and for the
order-2 system the second component `v` and its time derivative `v_t`. -/
structure ResidualInputs where
  u_t : ℚ
  u_xx : ℚ
  u_yy : ℚ
  v : ℚ
  v_t : ℚ
deriving DecidableEq, Repr

/-- `PDESolver._pde_residual` (lines 68-109), pointwise: for order 1 the
single residual `u_t - (u_xx + u_yy)`; otherwise the system residuals
`[u_t - v, v_t - (u_xx + u_yy)]`.  In both branches the right-hand side
is the hardcoded `rhs = u_xx + u_yy` (lines 83 and 103); the attribute
`rhs_sympy` is never read. -/
def pde_residual {B : Type} (s : PDESolver B) (inp : ResidualInputs) :
    List ℚ :=
  if s.order = 1 then
    [inp.u_t - (inp.u_xx + inp.u_yy)]
  else
    [inp.u_t - inp.v, inp.v_t - (inp.u_xx + inp.u_yy)]

/-- `PDESolver._initial_condition` (lines 111-120), pointwise: `[u0]`
for order 1, `[u0, 0]` (zero initial velocity) for order 2. -/
def initial_condition {B : Type} (s : PDESolver B) (xv yv : ℚ) : List ℚ :=
  if s.order = 1 then [s.ic_func xv yv] else [s.ic_func xv yv, 0]

/-- The boundary value function hardwired into every `DirichletBC`
constructed in `solve` (lines 150, 154, 155):
`lambda x: np.zeros((len(x), 1))`, i.e. the constant 0 at every boundary
point, for every component and regardless of `bc_params`. -/
def dirichletBCValue (_xv _yv _tv : ℚ) : ℚ := 0

/-- `np.linspace(a, b, n)` (with the default `endpoint=True`): `n`
values `a + i·(b-a)/(n-1)`, with the last entry set to `b` exactly. -/
def linspace (a b : ℚ) (n : ℕ) : List ℚ :=
  if n = 0 then []
  else if n = 1 then [a]
  else (List.range n).map
    (fun i => if i = n - 1 then b else a + i * ((b - a) / ((n : ℚ) - 1)))

/-- The trained model abstraction: `model.predict` at one point
`(x, y, t)` returns the network output row (width 1 for an order-1
solver, width 2 for order 2). -/
def Predict : Type := ℚ → ℚ → ℚ → List ℚ

/-- The column slicing of `solve` lines 206-208: for order 2 only the
first component `u_pred[:, 0:1]` is kept. -/
def sliceComponent (order : ℕ) (row : List ℚ) : List ℚ :=
  if order = 2 then row.take 1 else row

/-- One frame of `solve` (lines 195-212): `meshgrid` produces
`X[i][j] = x[j]`, `Y[i][j] = y[i]`; the flattened points are predicted
and reshaped to `(ny, nx)`, so the entry at row `i`, column `j` is the
(possibly sliced) network output at `(x[j], y[i], t)`.  The network
output row has width 1 after slicing, so the reshape reads exactly the
per-point first component. -/
def frameAt (predict : Predict) (order : ℕ) (xs ys : List ℚ) (tv : ℚ) :
    List (List ℚ) :=
  ys.map (fun yv => xs.map (fun xv =>
    (sliceComponent order (predict xv yv tv)).headD 0))

/-- The dict returned by `solve` (lines 214-219). -/
structure SolveResult where
  x : List ℚ
  y : List ℚ
  t : List ℚ
  frames : List (List (List ℚ))
deriving DecidableEq, Repr

/-- `PDESolver.solve`, output-producing part (lines 186-219): the grid
vectors from `np.linspace`, `num_frames = 50` time values over
`[0, t_max]`, and one predicted frame per time value.  The training
phase (lines 125-184) is abstracted into `predict`; note that `solve`
reads `x_min, x_max, nx, y_min, y_max, ny, t_max` but never `dt`, and
never reads `bc_params`, `ic_str` or `rhs_sympy`. -/
def solve {B : Type} (predict : Predict) (s : PDESolver B) : SolveResult :=
  let x_coords := linspace s.domain.x_min s.domain.x_max s.domain.nx
  let y_coords := linspace s.domain.y_min s.domain.y_max s.domain.ny
  let num_frames : ℕ := 50
  let t_values := linspace 0 s.domain.t_max num_frames
  { x := x_coords
    y := y_coords
    t := t_values
    frames := t_values.map (frameAt predict s.order x_coords y_coords) }

/-- `Except.isOk`-style helper: whether construction succeeded. -/
def exceptOk {ε α : Type} : Except ε α → Bool
  | .ok _ => true
  | .error _ => false

/-! ### Concrete instances of the external procedures, for witnesses -/

/-- A concrete instance of `parse_expr` covering the strings used in the
witnesses below (a lookup table). -/
def parseW : String → Option Expr := fun s =>
  if s = "ut - uxx" then some (.sub (.sym .ut) (.sym .uxx))
  else if s = "ut - u*uyy" then some (.sub (.sym .ut) (.mul (.sym .u) (.sym .uyy)))
  else if s = "utt - uxx" then some (.sub (.sym .utt) (.sym .uxx))
  else if s = "utt - uyy" then some (.sub (.sym .utt) (.sym .uyy))
  else if s = "uxx + uyy" then some (.add (.sym .uxx) (.sym .uyy))
  else if s = "x*y" then some (.mul (.sym .x) (.sym .y))
  else none

/-- A concrete instance of `sympy.solve`: solves expressions of the
shape `target - rhs` (giving `[rhs]`) and reports no solution
otherwise. -/
def solveW : SolveFn := fun expr target =>
  match expr with
  | .sub a b => if a = .sym target then [b] else []
  | _ => []

/-- A small concrete domain: `[0,1]×[0,1]`, `t_max = 1`, `nx = ny = 2`,
`dt = 1/2`. -/
def domW : Domain :=
  { x_min := 0, x_max := 1, y_min := 0, y_max := 1, t_max := 1
    nx := 2, ny := 2, dt := 1/2 }

/-- The solver state `PDESolver.init` produces for the heat-like
equation `ut - uxx` on `domW` with IC `x*y`. -/
def solverW : PDESolver Unit :=
  { equation_str := "ut - uxx", domain := domW, ic_str := "x*y"
    bc_params := (), order := 1, rhs_sympy := .sym .uxx
    icExpr := .mul (.sym .x) (.sym .y) }

/-- The solver state for the second equation `ut - u*uyy` on `domW`. -/
def solverW2 : PDESolver Unit :=
  { equation_str := "ut - u*uyy", domain := domW, ic_str := "x*y"
    bc_params := (), order := 1
    rhs_sympy := .mul (.sym .u) (.sym .uyy)
    icExpr := .mul (.sym .x) (.sym .y) }

/-- A constant-zero trained-model abstraction. -/
def predictZero : Predict := fun _ _ _ => [0]

/-- A constant-one trained-model abstraction. -/
def predictOne : Predict := fun _ _ _ => [1]

/-! ### Helper lemmas about `linspace`, `frameAt` and `solve` -/

theorem linspace_length (a b : ℚ) (n : ℕ) : (linspace a b n).length = n := by
  unfold linspace
  split
  · simp_all
  · split
    · simp_all
    · simp

theorem linspace_getD_of_lt (a b : ℚ) (n k : ℕ) (h2 : 2 ≤ n) (hk : k < n) :
    (linspace a b n).getD k 0 =
      if k = n - 1 then b else a + k * ((b - a) / ((n : ℚ) - 1)) := by
  unfold linspace
  rw [if_neg (by omega), if_neg (by omega)]
  rw [List.getD_eq_getElem _ _ (by simpa using hk)]
  simp

theorem linspace_getD_zero (a b : ℚ) (n : ℕ) (h2 : 2 ≤ n) :
    (linspace a b n).getD 0 0 = a := by
  rw [linspace_getD_of_lt a b n 0 h2 (by omega), if_neg (by omega)]
  ring

theorem linspace_getD_last (a b : ℚ) (n : ℕ) (h2 : 2 ≤ n) :
    (linspace a b n).getD (n - 1) 0 = b := by
  rw [linspace_getD_of_lt a b n (n - 1) h2 (by omega), if_pos rfl]

theorem solve_frames_length {B : Type} (predict : Predict)
    (s : PDESolver B) : (solve predict s).frames.length = 50 := by
  unfold solve
  simp [linspace_length]

theorem solve_t_length {B : Type} (predict : Predict) (s : PDESolver B) :
    (solve predict s).t.length = 50 := by
  unfold solve
  simp [linspace_length]

theorem map_getD_of_lt {α β : Type} (f : α → β) (l : List α) (k : ℕ)
    (d : β) (d2 : α) (h : k < l.length) :
    (l.map f).getD k d = f (l.getD k d2) := by
  rw [List.getD_eq_getElem _ _ (by simpa using h), List.getElem_map,
    List.getD_eq_getElem _ _ h]

theorem solve_frame_entry {B : Type} (predict : Predict)
    (s : PDESolver B) (k i j : ℕ) (hk : k < 50) (hi : i < s.domain.ny)
    (hj : j < s.domain.nx) :
    (((solve predict s).frames.getD k []).getD i []).getD j 0 =
      (sliceComponent s.order (predict
        ((linspace s.domain.x_min s.domain.x_max s.domain.nx).getD j 0)
        ((linspace s.domain.y_min s.domain.y_max s.domain.ny).getD i 0)
        ((linspace 0 s.domain.t_max 50).getD k 0))).headD 0 := by
  unfold solve
  simp only []
  rw [map_getD_of_lt
    (frameAt predict s.order
      (linspace s.domain.x_min s.domain.x_max s.domain.nx)
      (linspace s.domain.y_min s.domain.y_max s.domain.ny))
    (linspace 0 s.domain.t_max 50) k [] 0
    (by simpa [linspace_length] using hk)]
  unfold frameAt
  rw [map_getD_of_lt _
    (linspace s.domain.y_min s.domain.y_max s.domain.ny) i [] 0
    (by simpa [linspace_length] using hi)]
  rw [map_getD_of_lt _
    (linspace s.domain.x_min s.domain.x_max s.domain.nx) j 0 0
    (by simpa [linspace_length] using hj)]

/-! ### C2: order classification -/

/-- Claim C2: for every equation string that parses to an expression,
if `utt` is among its free symbols any successful compilation has
order 2; otherwise if `ut` is free any successful compilation has
order 1; and if neither is free `_compile_equation` raises the
invalid-equation error. -/
theorem compileEquation_order_classification
    (parse : String → Option Expr) (solveFn : SolveFn) (s : String)
    (expr : Expr) (h : parse s = some expr) :
    (Sym.utt ∈ expr.freeSymbols →
      ∀ c, compileEquation parse solveFn s = .ok c → c.order = 2)
    ∧ (Sym.utt ∉ expr.freeSymbols → Sym.ut ∈ expr.freeSymbols →
      ∀ c, compileEquation parse solveFn s = .ok c → c.order = 1)
    ∧ (Sym.utt ∉ expr.freeSymbols → Sym.ut ∉ expr.freeSymbols →
      compileEquation parse solveFn s =
        .error ("Invalid equation string: Equation must contain ut or utt")) := by
  unfold compileEquation
  rw [h]
  refine ⟨?_, ?_, ?_⟩
  · intro hutt c hc
    simp only [if_pos hutt] at hc
    cases hsol : solveFn expr Sym.utt with
    | nil => rw [hsol] at hc; exact absurd hc (by simp)
    | cons e rest => rw [hsol] at hc; cases hc; rfl
  · intro hutt hut c hc
    simp only [if_neg hutt, if_pos hut] at hc
    cases hsol : solveFn expr Sym.ut with
    | nil => rw [hsol] at hc; exact absurd hc (by simp)
    | cons e rest => rw [hsol] at hc; cases hc; rfl
  · intro hutt hut
    simp only [if_neg hutt, if_neg hut]

/-- Witness for C2 at concrete inputs: `utt - uxx` compiles with
order 2, and `uxx + uyy` (no time derivative) is rejected. -/
theorem compileEquation_order_classification_witness :
    (CompiledEq.mk 2 (.sym .uxx)).order = 2
    ∧ compileEquation parseW solveW ("uxx + uyy") =
        .error ("Invalid equation string: Equation must contain ut or utt") := by
  constructor
  · exact (compileEquation_order_classification parseW solveW ("utt - uxx")
      (.sub (.sym .utt) (.sym .uxx)) rfl).1 (by decide) _ rfl
  · exact (compileEquation_order_classification parseW solveW ("uxx + uyy")
      (.add (.sym .uxx) (.sym .uyy)) rfl).2.2 (by decide) (by decide)

/-! ### C7: algebraic solve and branch selection -/

/-- Claim C7: when `_compile_equation` solves for the governing
time-derivative symbol (`utt` for order 2, `ut` for order 1), an empty
solution list raises the invalid-equation error and a non-empty one has
its first element selected as `rhs_sympy`. -/
theorem compileEquation_solve_selection
    (parse : String → Option Expr) (solveFn : SolveFn) (s : String)
    (expr : Expr) (h : parse s = some expr) :
    (Sym.utt ∈ expr.freeSymbols →
      (solveFn expr Sym.utt = [] →
        compileEquation parse solveFn s =
          .error ("Invalid equation string: Could not solve equation for utt"))
      ∧ ∀ e rest, solveFn expr Sym.utt = e :: rest →
        compileEquation parse solveFn s = .ok ⟨2, e⟩)
    ∧ (Sym.utt ∉ expr.freeSymbols → Sym.ut ∈ expr.freeSymbols →
      (solveFn expr Sym.ut = [] →
        compileEquation parse solveFn s =
          .error ("Invalid equation string: Could not solve equation for ut"))
      ∧ ∀ e rest, solveFn expr Sym.ut = e :: rest →
        compileEquation parse solveFn s = .ok ⟨1, e⟩) := by
  unfold compileEquation
  rw [h]
  constructor
  · intro hutt
    simp only [if_pos hutt]
    exact ⟨fun hsol => by rw [hsol], fun e rest hsol => by rw [hsol]⟩
  · intro hutt hut
    simp only [if_neg hutt, if_pos hut]
    exact ⟨fun hsol => by rw [hsol], fun e rest hsol => by rw [hsol]⟩

/-- Witness for C7 at concrete inputs: for `utt - uyy` the solver
returns `[uyy]` and the first (only) solution is selected; for
`ut - u*uyy` the expression is linear in `ut` and the first solution is
kept with order 1. -/
theorem compileEquation_solve_selection_witness :
    compileEquation parseW solveW ("utt - uyy") = .ok ⟨2, .sym .uyy⟩
    ∧ compileEquation parseW solveW ("ut - u*uyy") =
        .ok ⟨1, .mul (.sym .u) (.sym .uyy)⟩ := by
  constructor
  · exact ((compileEquation_solve_selection parseW solveW ("utt - uyy")
      (.sub (.sym .utt) (.sym .uyy)) rfl).1 (by decide)).2 _ _ rfl
  · exact ((compileEquation_solve_selection parseW solveW ("ut - u*uyy")
      (.sub (.sym .ut) (.mul (.sym .u) (.sym .uyy))) rfl).2
        (by decide) (by decide)).2 _ _ rfl

/-! ### C1: the training residual ignores the equation content -/

/-- Claim C1: for every pair of equation strings whose construction
succeeds and whose compiled states have the same time order, the
training residual `_pde_residual` is the same function: it hardcodes
the right-hand side `uxx + uyy` and never reads `rhs_sympy`, so the
residual is independent of the equation content beyond its order. -/
theorem pde_residual_equation_independent {B : Type}
    (parse : String → Option Expr) (solveFn : SolveFn)
    (eq1 eq2 ic1 ic2 : String) (d1 d2 : Domain) (b1 b2 : B)
    (s1 s2 : PDESolver B)
    (_h1 : PDESolver.init parse solveFn eq1 d1 ic1 b1 = .ok s1)
    (_h2 : PDESolver.init parse solveFn eq2 d2 ic2 b2 = .ok s2)
    (horder : s1.order = s2.order) :
    pde_residual s1 = pde_residual s2 := by
  funext inp
  unfold pde_residual
  rw [horder]

/-- Witness for C1: the heat-like equations `ut - uxx` and `ut - u*uyy`
both compile to order 1 and yield the same residual function. -/
theorem pde_residual_equation_independent_witness :
    pde_residual solverW = pde_residual solverW2 :=
  pde_residual_equation_independent parseW solveW ("ut - uxx")
    ("ut - u*uyy") ("x*y") ("x*y") domW domW () () solverW solverW2
    rfl rfl rfl

/-! ### C3: frame count -/

/-- `steps = floor(t_max/dt)` as asserted by the claim (the code of
`solve` never reads `dt` and has no stepping loop; this definition
follows the claim text, for comparison with `solve`). -/
def claimedSteps (d : Domain) : ℕ := (Rat.floor (d.t_max / d.dt)).toNat

/-- `save_interval = max(1, steps // 50)` as asserted by the claim. -/
def claimedSaveInterval (d : Domain) : ℕ := max 1 (claimedSteps d / 50)

/-- `1 + floor(steps / save_interval)` as asserted by the claim. -/
def claimedFrameCount (d : Domain) : ℕ :=
  1 + claimedSteps d / claimedSaveInterval d

/-- Counterexample to C3: on `domW` (`t_max = 1`, `dt = 1/2`) the
claimed formula gives `1 + 2/1 = 3` recorded frames, but `solve`
records 50 frames (the hardcoded `num_frames = 50`, line 191). -/
theorem solve_frame_count_counterexample :
    claimedFrameCount domW = 3
    ∧ (solve predictZero solverW).frames.length = 50
    ∧ (solve predictZero solverW).frames.length ≠ claimedFrameCount domW := by
  have h2 : domW.t_max / domW.dt = 2 := by norm_num [domW]
  have h3 : claimedFrameCount domW = 3 := by
    unfold claimedFrameCount claimedSaveInterval claimedSteps
    rw [h2]
    decide
  refine ⟨h3, by rw [solve_frames_length], ?_⟩
  rw [solve_frames_length, h3]
  norm_num

/-- Claim C3 (amended): the number of recorded frames of every run is
exactly 50 (`num_frames = 50` is hardcoded), independent of `dt`,
`t_max` and every other input. -/
theorem solve_frame_count {B : Type} (predict : Predict)
    (s : PDESolver B) : (solve predict s).frames.length = 50 :=
  solve_frames_length predict s

/-! ### C8: grid exactness -/

/-- Claim C8: for every domain with `nx ≥ 2` and `ny ≥ 2`, the output
vector `x` has exactly `nx` entries with `x[0] = x_min` and
`x[nx-1] = x_max`, and analogously for `y`. -/
theorem solve_grid_exactness {B : Type} (predict : Predict)
    (s : PDESolver B) (hx : 2 ≤ s.domain.nx) (hy : 2 ≤ s.domain.ny) :
    ((solve predict s).x.length = s.domain.nx
      ∧ (solve predict s).x.getD 0 0 = s.domain.x_min
      ∧ (solve predict s).x.getD (s.domain.nx - 1) 0 = s.domain.x_max)
    ∧ ((solve predict s).y.length = s.domain.ny
      ∧ (solve predict s).y.getD 0 0 = s.domain.y_min
      ∧ (solve predict s).y.getD (s.domain.ny - 1) 0 = s.domain.y_max) := by
  unfold solve
  simp only []
  exact ⟨⟨linspace_length _ _ _,
      linspace_getD_zero _ _ _ hx, linspace_getD_last _ _ _ hx⟩,
    ⟨linspace_length _ _ _,
      linspace_getD_zero _ _ _ hy, linspace_getD_last _ _ _ hy⟩⟩

/-- Witness for C8 on the concrete `solverW` (`nx = ny = 2`,
`[0,1]×[0,1]`). -/
theorem solve_grid_exactness_witness :
    (((solve predictZero solverW).x.length = solverW.domain.nx
      ∧ (solve predictZero solverW).x.getD 0 0 = solverW.domain.x_min
      ∧ (solve predictZero solverW).x.getD (solverW.domain.nx - 1) 0 =
          solverW.domain.x_max)
    ∧ ((solve predictZero solverW).y.length = solverW.domain.ny
      ∧ (solve predictZero solverW).y.getD 0 0 = solverW.domain.y_min
      ∧ (solve predictZero solverW).y.getD (solverW.domain.ny - 1) 0 =
          solverW.domain.y_max)) :=
  solve_grid_exactness predictZero solverW (by decide) (by decide)

/-! ### C9: time labels -/

/-- Claim C9: the output vector `t` has exactly as many entries as
there are recorded frames, and its entries are evenly spaced over the
closed interval `[0, t_max]`: `t[k] = k·(t_max/49)` for all `k`, with
`t[0] = 0` and the last entry equal to `t_max`. -/
theorem solve_time_labels {B : Type} (predict : Predict)
    (s : PDESolver B) :
    (solve predict s).t.length = (solve predict s).frames.length
    ∧ (solve predict s).t.getD 0 0 = 0
    ∧ (solve predict s).t.getD ((solve predict s).t.length - 1) 0 =
        s.domain.t_max
    ∧ ∀ k, k < (solve predict s).t.length →
        (solve predict s).t.getD k 0 = (k : ℚ) * (s.domain.t_max / 49) := by
  refine ⟨by rw [solve_t_length, solve_frames_length], ?_, ?_, ?_⟩
  · show (solve predict s).t.getD 0 0 = 0
    unfold solve
    simp only []
    exact linspace_getD_zero _ _ _ (by norm_num)
  · rw [solve_t_length]
    unfold solve
    simp only []
    exact linspace_getD_last _ _ _ (by norm_num)
  · intro k hk
    rw [solve_t_length] at hk
    unfold solve
    simp only []
    rw [linspace_getD_of_lt 0 s.domain.t_max 50 k (by norm_num) hk]
    by_cases hk49 : k = 50 - 1
    · subst hk49
      push_cast
      field_simp
    · rw [if_neg hk49]
      push_cast
      ring

/-- Witness for C9: the second time label of a concrete run equals
`1·(t_max/49)`. -/
theorem solve_time_labels_witness :
    (solve predictZero solverW).t.getD 1 0 =
      ((1 : ℕ) : ℚ) * (solverW.domain.t_max / 49) :=
  (solve_time_labels predictZero solverW).2.2.2 1
    (by rw [solve_t_length]; norm_num)

/-! ### C4: determinism -/

/-- Counterexample to C4: identical constructor inputs (the same solver
state `solverW`, hence the same equation, domain, ic and bc) produce
different outputs under two different trained networks.  The network is
created with an unseeded random `Glorot uniform` initialization
(line 173), so the trained model is part of the run environment, not a
function of the inputs — outputs are not determined by the inputs
alone. -/
theorem solve_nondeterministic_counterexample :
    solve predictZero solverW ≠ solve predictOne solverW := by
  intro h
  have e0 : (((solve predictZero solverW).frames.getD 0 []).getD 0
      []).getD 0 0 = 0 := by
    rw [solve_frame_entry predictZero solverW 0 0 0 (by norm_num)
      (by decide) (by decide)]
    rfl
  have e1 : (((solve predictOne solverW).frames.getD 0 []).getD 0
      []).getD 0 0 = 1 := by
    rw [solve_frame_entry predictOne solverW 0 0 0 (by norm_num)
      (by decide) (by decide)]
    rfl
  rw [h] at e0
  exact absurd (e0.symm.trans e1) (by norm_num)

/-- Claim C4 (amended): the output is a deterministic function of the
trained network together with the domain and the compiled order — for
one fixed trained model, runs over equal domains with equal order
produce identical output; but since the network weights are drawn by an
unseeded random initializer, identical `(equation, domain, ic, bc)`
inputs alone do not determine the output. -/
theorem solve_deterministic_given_model {B1 B2 : Type}
    (predict : Predict) (s1 : PDESolver B1) (s2 : PDESolver B2)
    (hd : s1.domain = s2.domain) (ho : s1.order = s2.order) :
    solve predict s1 = solve predict s2 := by
  unfold solve
  rw [hd, ho]

/-- Witness for the amended C4: two states sharing the domain and the
order (but with different equations and right-hand sides) give the same
output under one fixed model. -/
theorem solve_deterministic_given_model_witness :
    solve predictZero solverW = solve predictZero solverW2 :=
  solve_deterministic_given_model predictZero solverW solverW2 rfl rfl

/-! ### C5: domain validation at construction -/

/-- A degenerate domain: `nx = ny = 1`, `dt = 0`, `t_max = 0`. -/
def domBad : Domain :=
  { x_min := 0, x_max := 1, y_min := 0, y_max := 1, t_max := 0
    nx := 1, ny := 1, dt := 0 }

/-- Counterexample to C5: `__init__` performs no domain validation —
construction with `nx = 1 < 2`, `ny = 1 < 2`, `dt = 0 ≤ 0` and
`t_max = 0 ≤ 0` succeeds (no error of any kind is raised). -/
theorem init_no_domain_validation_counterexample :
    domBad.nx < 2 ∧ domBad.ny < 2 ∧ domBad.dt ≤ 0 ∧ domBad.t_max ≤ 0
    ∧ exceptOk (PDESolver.init parseW solveW ("ut - uxx") domBad
        ("x*y") ()) = true := by
  exact ⟨by decide, by decide, by norm_num [domBad], by norm_num [domBad], rfl⟩

/-- Claim C5 (amended): construction never inspects the domain — it
succeeds for every domain whatsoever (including `nx < 2`, `ny < 2`,
`dt ≤ 0`, `t_max ≤ 0`) as soon as the equation and the initial
condition compile; no `DomainConfigError` exists in the code. -/
theorem init_ignores_domain {B : Type} (parse : String → Option Expr)
    (solveFn : SolveFn) (eqs : String) (d : Domain) (ics : String)
    (bc : B) (c : CompiledEq) (e : Expr)
    (h1 : compileEquation parse solveFn eqs = .ok c)
    (h2 : compileIC parse ics = .ok e) :
    PDESolver.init parse solveFn eqs d ics bc =
      .ok ⟨eqs, d, ics, bc, c.order, c.rhs_sympy, e⟩ := by
  unfold PDESolver.init
  rw [h1, h2]

/-- Witness for the amended C5 on the degenerate `domBad`. -/
theorem init_ignores_domain_witness :
    PDESolver.init parseW solveW ("ut - uxx") domBad ("x*y") () =
      .ok ⟨"ut - uxx", domBad, "x*y", (),
        (CompiledEq.mk 1 (.sym .uxx)).order,
        (CompiledEq.mk 1 (.sym .uxx)).rhs_sympy,
        .mul (.sym .x) (.sym .y)⟩ :=
  init_ignores_domain parseW solveW ("ut - uxx") domBad ("x*y") ()
    ⟨1, .sym .uxx⟩ (.mul (.sym .x) (.sym .y)) rfl rfl

/-! ### C6: boundary entries of recorded frames -/

/-- Counterexample to C6: under a trained network predicting the
constant 1, the entry at row 0, column 0 of the first recorded frame —
a first-row (boundary) entry — equals 1, not 0.  The Dirichlet
condition enters training only as a soft penalty (lines 148-156); the
recorded frames are raw `model.predict` outputs, never clamped. -/
theorem solve_boundary_not_zero_counterexample :
    (((solve predictOne solverW).frames.getD 0 []).getD 0 []).getD 0 0
      = 1 ∧ (1 : ℚ) ≠ 0 := by
  constructor
  · rw [solve_frame_entry predictOne solverW 0 0 0 (by norm_num)
      (by decide) (by decide)]
    rfl
  · norm_num

/-- Claim C6 (amended): every entry of every recorded frame — boundary
entries included — is the raw network prediction at the corresponding
grid point `(x[j], y[i], t[k])` (first component for order 2); no exact
zeroing of the first/last rows and columns is performed. -/
theorem solve_frames_raw_predictions {B : Type} (predict : Predict)
    (s : PDESolver B) (k i j : ℕ) (hk : k < 50) (hi : i < s.domain.ny)
    (hj : j < s.domain.nx) :
    (((solve predict s).frames.getD k []).getD i []).getD j 0 =
      (sliceComponent s.order (predict
        ((linspace s.domain.x_min s.domain.x_max s.domain.nx).getD j 0)
        ((linspace s.domain.y_min s.domain.y_max s.domain.ny).getD i 0)
        ((linspace 0 s.domain.t_max 50).getD k 0))).headD 0 :=
  solve_frame_entry predict s k i j hk hi hj

/-- Witness for the amended C6 at a concrete interior index. -/
theorem solve_frames_raw_predictions_witness :
    (((solve predictZero solverW).frames.getD 1 []).getD 1 []).getD 1 0 =
      (sliceComponent solverW.order (predictZero
        ((linspace solverW.domain.x_min solverW.domain.x_max
          solverW.domain.nx).getD 1 0)
        ((linspace solverW.domain.y_min solverW.domain.y_max
          solverW.domain.ny).getD 1 0)
        ((linspace 0 solverW.domain.t_max 50).getD 1 0))).headD 0 :=
  solve_frames_raw_predictions predictZero solverW 1 1 1 (by norm_num)
    (by decide) (by decide)

/-! ### C10: the bc object is stored but never read -/

/-- Claim C10: runs identical except for the `bc_params` object behave
identically — `__init__` stores the object but construction is
otherwise unaffected by it, `solve` never reads it, and the boundary
value function handed to every `DirichletBC` is the hardwired constant
zero, regardless of `bc_params`. -/
theorem bc_params_ignored {B : Type} (parse : String → Option Expr)
    (solveFn : SolveFn) (eqs : String) (d : Domain) (ics : String)
    (b1 b2 : B) (predict : Predict) (s : PDESolver B) :
    (PDESolver.init parse solveFn eqs d ics b1).map
        (fun st => { st with bc_params := b2 }) =
      PDESolver.init parse solveFn eqs d ics b2
    ∧ solve predict { s with bc_params := b1 } =
        solve predict { s with bc_params := b2 }
    ∧ ∀ xv yv tv, dirichletBCValue xv yv tv = 0 := by
  refine ⟨?_, rfl, fun _ _ _ => rfl⟩
  unfold PDESolver.init
  cases hq : compileEquation parse solveFn eqs with
  | error e => simp [Except.map]
  | ok c =>
    cases hic : compileIC parse ics with
    | error e => simp [Except.map]
    | ok icE => simp [Except.map]

end AutoPDE
